import Mathlib

/-!
Shallow embedding of the request-handling core of the `signer-proxy` gateway
(upnodedev/signer-proxy): the JSON-RPC types (`src/jsonrpc.rs`), the method
dispatcher and signing pipeline (`src/signers/common.rs`), the per-key signer
cache (`get_signer` in `src/signers/yubihsm.rs` and `src/signers/aws_kms.rs`),
the address endpoint (`get_address` in the same files), and the HTTP error
rendering (`src/app_types.rs`).

Modelling conventions:
  * Rust `u64` / byte values are `Nat` (no arithmetic in the embedded code can
    overflow: ids and bytes are only moved around, never computed with).
  * Fallible Rust code (`anyhow::Result`) is `Except String` carrying the
    error message.
  * The external backends (`YubiSigner::connect`, `AwsSigner::new`) are a
    parameter `backend : K → Except String YubiSigner`: for a fixed connector,
    credentials and process state the resolve of a key id is a fixed outcome.
    Each call the program makes to the backend is recorded in an event log so
    that "how many resolve calls were issued" is observable in the model.
  * The `tokio::sync::Mutex` around the signer map is held for the whole body
    of `get_signer` (lock at entry, released at return), so concurrent
    executions of `get_signer` serialize into some sequential order; the model
    therefore treats each `get_signer` call as one atomic state transition and
    quantifies over arbitrary sequences of such transitions.
-/

/-! ## JSON-RPC data model (`src/jsonrpc.rs`) -/

/-- Rust `JsonRpcRequest<T>` from `src/jsonrpc.rs`: jsonrpc version, method name,
numeric id, optional params. -/
structure JsonRpcRequest (T : Type) where
  jsonrpc : String
  method : String
  id : Nat
  params : Option T
deriving Repr, DecidableEq

/-- Rust `JsonRpcResult<T>` from `src/jsonrpc.rs`: either a result value or an
error object with code and message. -/
inductive JsonRpcResult (T : Type) where
  | result (v : T)
  | error (code : Int) (message : String)
deriving Repr, DecidableEq

/-- Rust `JsonRpcReply<T>` from `src/jsonrpc.rs`: echoed id, jsonrpc version and a
`JsonRpcResult`. -/
structure JsonRpcReply (T : Type) where
  id : Nat
  jsonrpc : String
  result : JsonRpcResult T
deriving Repr, DecidableEq

/-- Rust `AddressResponse` from `src/jsonrpc.rs`. -/
structure AddressResponse where
  address : String
deriving Repr, DecidableEq

/-! ## Transaction types and the encode stage

`alloy`'s `TransactionRequest`, `TxEnvelope` and RLP machinery are external
library code.  The claims never inspect individual transaction fields, so
`TransactionRequest` is kept as the opaque record of a successfully parsed
params object, and a `TxEnvelope` is its transaction type together with the
bytes of the RLP list that encodes the signed transaction body (the part after
the EIP-2718 type byte; for a legacy transaction, the whole canonical
encoding). -/

/-- alloy `TransactionRequest` (external library type): opaque record of the
parsed transaction object.  No claim inspects its fields. -/
structure TransactionRequest where
  fields : List (String × String)
deriving Repr, DecidableEq

/-- alloy `TxType`: the EIP-2718 transaction type tag. -/
inductive TxType where
  | legacy
  | eip2930
  | eip1559
  | eip4844
deriving Repr, DecidableEq

/-- Value of `tx_type() as u8`: the numeric value of the type tag. -/
def TxType.toByte : TxType → Nat
  | .legacy => 0
  | .eip2930 => 1
  | .eip1559 => 2
  | .eip4844 => 3

/-- alloy `TxEnvelope` (external library type): a signed transaction, i.e. a
type tag plus the bytes of the RLP list encoding its fields and signature. -/
structure TxEnvelope where
  txType : TxType
  rlpPayload : List Nat
deriving Repr, DecidableEq

/-- Big-endian minimal byte string of a natural number (helper for RLP length
headers). -/
def beBytes (n : Nat) : List Nat :=
  if h : n = 0 then [] else beBytes (n / 256) ++ [n % 256]
decreasing_by exact Nat.div_lt_self (Nat.pos_of_ne_zero h) (by decide)

/-- alloy_rlp `Header::encode` for a non-list (string) header of the given
payload length: one byte `0x80 + len` when the length is below 56, otherwise
`0xb7 + |len bytes|` followed by the big-endian length. -/
def rlpStringHeader (len : Nat) : List Nat :=
  if len < 56 then [0x80 + len]
  else (0xb7 + (beBytes len).length) :: beBytes len

/-- alloy `Encodable2718::encode_2718` on a `TxEnvelope`: the canonical raw
transaction bytes — the type byte followed by the RLP payload for typed
transactions, the bare RLP payload for legacy ones. -/
def eip2718Encode (env : TxEnvelope) : List Nat :=
  match env.txType with
  | .legacy => env.rlpPayload
  | _ => env.txType.toByte :: env.rlpPayload

/-- alloy `Encodable2718::network_encode`, which is what the `Encodable`
instance used by `tx_envelope.encode(&mut encoded_tx)` calls: the legacy
encoding is unchanged, a typed transaction is wrapped as an RLP string (length
header followed by the EIP-2718 bytes). -/
def networkEncode (env : TxEnvelope) : List Nat :=
  match env.txType with
  | .legacy => env.rlpPayload
  | _ => rlpStringHeader (eip2718Encode env).length ++ eip2718Encode env

/-- Lowercase hex digit for a value below 16. -/
def hexDigit (n : Nat) : Char :=
  if n < 10 then Char.ofNat (48 + n) else Char.ofNat (87 + n)

/-- Two lowercase hex digits for one byte. -/
def byteHex (b : Nat) : String :=
  String.mk [hexDigit (b / 16 % 16), hexDigit (b % 16)]

/-- alloy `hex::encode_prefixed`: lowercase hex string of the bytes with a 0x
prefix in front. -/
def hexEncodePrefixed (bs : List Nat) : String :=
  "0x" ++ String.join (bs.map byteHex)

/-- The encode stage of `handle_eth_sign_transaction` in
`src/signers/common.rs` lines 32-36: push `tx_envelope.tx_type() as u8`, then
`tx_envelope.encode(&mut encoded_tx)` (the network encoding), then
`hex::encode_prefixed`. -/
def encodeStageBytes (env : TxEnvelope) : List Nat :=
  env.txType.toByte :: networkEncode env

/-- The hex string `rlp_hex` produced by the encode stage of
`src/signers/common.rs`. -/
def encodeStageHex (env : TxEnvelope) : String :=
  hexEncodePrefixed (encodeStageBytes env)

/-- Modelled from the spec: the spec's `encode` stage (§4.3 item 4) — "the
canonical type-prefixed binary transaction format for the target chain"
rendered as a lowercase 0x-prefixed hex string.  The canonical raw
transaction format is the EIP-2718 encoding: one type tag for typed
transactions, none for legacy, with no extra wrapper. -/
def canonicalEncodeHex (env : TxEnvelope) : String :=
  hexEncodePrefixed (eip2718Encode env)

/-! ## JSON values and the serde boundary

`serde_json::Value` appears in the program only in two roles: an element of a
params array that `serde_json::from_value::<TransactionRequest>` either parses
or rejects, and a reply payload (a hex or version string).  The model keeps
exactly those cases; `deserErr` carries serde's error message for a value
that does not satisfy the transaction schema. -/

/-- Model of `serde_json::Value` in the roles the program uses it. -/
inductive Value where
  | str (s : String)
  | txObject (t : TransactionRequest)
  | deserErr (msg : String)
deriving Repr, DecidableEq

/-- Model of `serde_json::from_value::<TransactionRequest>`: succeeds exactly
on a value that satisfies the transaction schema, otherwise fails with serde's
error message. -/
def serdeFromValueTx : Value → Except String TransactionRequest
  | .txObject t => .ok t
  | .str _ => .error "invalid type: string, expected struct TransactionRequest"
  | .deserErr msg => .error msg

/-! ## Signers and the backend boundary

`YubiSigner::connect(connector, credentials, key_id)` (and `AwsSigner::new`
for the cloud backend) resolves a key id into a signer bound to that key; it
is modelled by a function `backend : K → Except String YubiSigner` (the
connector and credentials are fixed at startup).  `EthereumWallet::from`
wraps a signer into a wallet. -/

/-- Signer handle produced by the backend for one key: it can report the
address it controls (`alloy` `YubiSigner` / `AwsSigner`). -/
structure YubiSigner where
  keyId : Nat
  address : Nat
deriving Repr, DecidableEq

/-- Rust `EthereumWallet::from(signer)`. -/
structure EthereumWallet where
  signer : YubiSigner
deriving Repr, DecidableEq

/-- Rust `EthereumWallet::from`. -/
def EthereumWallet.fromSigner (s : YubiSigner) : EthereumWallet := ⟨s⟩

/-! ## The per-key signer cache (`get_signer`)

`src/signers/yubihsm.rs` lines 117-131 and `src/signers/aws_kms.rs` lines
67-80 are the same algorithm over different key types (`u16` vs `String`), so
the model is generic in the key type `K`.  The `HashMap<K, EthereumWallet>`
is an association list whose keys are unique by construction (entries are
only inserted on a miss); `insert` on an absent key is modelled by prepending.
Every call the program makes to the backend is logged as an event. -/

/-- One observable backend interaction. -/
inductive Ev (K : Type) where
  | resolveOk (k : K)
  | resolveFail (k : K)
  | addrResolve (k : K)
deriving Repr, DecidableEq

/-- Shared mutable state of the serving process: the signer cache
(`signers: Arc<Mutex<HashMap<K, EthereumWallet>>>`) plus the log of backend
calls issued so far (instrumentation, not program data). -/
structure SrvState (K : Type) where
  cache : List (K × EthereumWallet)
  log : List (Ev K)
deriving Repr, DecidableEq

/-- The state at process start: empty cache, no backend calls issued. -/
def initState (K : Type) : SrvState K := ⟨[], []⟩

/-- Rust `HashMap::get` on the association list. -/
def lookupA [DecidableEq K] : List (K × EthereumWallet) → K → Option EthereumWallet
  | [], _ => none
  | (k', w) :: rest, k => if k = k' then some w else lookupA rest k

/-- Rust `get_signer(state, key_id)` from `src/signers/yubihsm.rs` lines 117-131
(and, with `K := String` and the cloud backend, `src/signers/aws_kms.rs`
lines 67-80): under the cache lock, return the cached wallet on a hit;
on a miss resolve through the backend, insert the wallet on success, and
propagate the error (without inserting) on failure.  The lock is held for the
whole body, so one call is one atomic transition. -/
def getSigner [DecidableEq K] (backend : K → Except String YubiSigner)
    (s : SrvState K) (k : K) : Except String EthereumWallet × SrvState K :=
  match lookupA s.cache k with
  | some w => (.ok w, s)
  | none =>
    match backend k with
    | .error e => (.error e, { s with log := s.log ++ [.resolveFail k] })
    | .ok ys =>
      let w := EthereumWallet.fromSigner ys
      (.ok w, { cache := (k, w) :: s.cache, log := s.log ++ [.resolveOk k] })

/-- Rust `get_address(state, key_id)` from `src/signers/yubihsm.rs` lines 147-152
(and `src/signers/aws_kms.rs` lines 96-100): construct a fresh signer
directly from the backend — the cache is not consulted and not written — and
return its address. -/
def getAddress [DecidableEq K] (backend : K → Except String YubiSigner)
    (s : SrvState K) (k : K) : Except String Nat × SrvState K :=
  match backend k with
  | .error e => (.error e, { s with log := s.log ++ [.addrResolve k] })
  | .ok ys => (.ok ys.address, { s with log := s.log ++ [.addrResolve k] })

/-- Number of backend resolve calls (successful or failed) issued for key `k`
recorded in a log — the calls made by `get_signer`. -/
def resolveCalls [DecidableEq K] (log : List (Ev K)) (k : K) : Nat :=
  log.countP fun e => decide (e = .resolveOk k) || decide (e = .resolveFail k)

/-- Number of successful resolve calls issued for key `k` by `get_signer`. -/
def okResolveCalls [DecidableEq K] (log : List (Ev K)) (k : K) : Nat :=
  log.countP fun e => decide (e = .resolveOk k)

/-- Runs `n` sequential executions of `get_signer` for the same key — the order
into which the cache mutex serializes `n` concurrent requests — returning
every caller's observed result and the final state. -/
def runGetSigners [DecidableEq K] (backend : K → Except String YubiSigner)
    (s : SrvState K) (k : K) : Nat → List (Except String EthereumWallet) × SrvState K
  | 0 => ([], s)
  | n + 1 =>
    let (r, s1) := getSigner backend s k
    let (rs, s2) := runGetSigners backend s1 k n
    (r :: rs, s2)

/-- One serialized operation on the shared state: a `POST /key/k` request
(which runs `get_signer`) or a `GET /key/k/address` request (which runs
`get_address`). -/
inductive Op (K : Type) where
  | sign (k : K)
  | addr (k : K)
deriving Repr, DecidableEq

/-- The state transition of one operation. -/
def stepOp [DecidableEq K] (backend : K → Except String YubiSigner)
    (s : SrvState K) : Op K → SrvState K
  | .sign k => (getSigner backend s k).2
  | .addr k => (getAddress backend s k).2

/-- The state after a sequence of serialized operations. -/
def runOps [DecidableEq K] (backend : K → Except String YubiSigner)
    (s : SrvState K) : List (Op K) → SrvState K
  | [] => s
  | op :: ops => runOps backend (stepOp backend s op) ops

/-! ## The signing pipeline and dispatcher (`src/signers/common.rs`)

`tx_request.build(&signer)` is alloy's fill-and-sign pipeline (an external
library call that produces the signed envelope or fails); it is passed in as
a parameter `build`, and the compile-time constant `env!("CARGO_PKG_VERSION")`
as a parameter `version`. -/

/-- Rust `handle_eth_sign_transaction(payload, signer)` from `src/signers/common.rs`
lines 15-45: reject absent or empty params with the error "params is empty";
otherwise deserialize `params[0]` into a `TransactionRequest`, build and sign
it through the wallet, encode the envelope (type byte pushed in front of the
network encoding) and reply with the 0x-hex string under the request's id and
jsonrpc version. -/
def handle_eth_sign_transaction
    (build : TransactionRequest → EthereumWallet → Except String TxEnvelope)
    (payload : JsonRpcRequest (List Value)) (signer : EthereumWallet) :
    Except String (JsonRpcReply Value) :=
  match payload.params with
  | none => .error "params is empty"
  | some params =>
    if params.isEmpty then
      .error "params is empty"
    else
      match serdeFromValueTx (params.headD (.str "")) with
      | .error e => .error e
      | .ok txRequest =>
        match build txRequest signer with
        | .error e => .error e
        | .ok txEnvelope =>
          .ok { id := payload.id, jsonrpc := payload.jsonrpc,
                result := .result (.str (encodeStageHex txEnvelope)) }

/-- Rust `handle_health_status(payload)` from `src/signers/common.rs` lines 47-55:
reply with the crate version under the request's id and jsonrpc version. -/
def handle_health_status (version : String)
    (payload : JsonRpcRequest (List Value)) :
    Except String (JsonRpcReply Value) :=
  Except.ok { id := payload.id, jsonrpc := payload.jsonrpc,
              result := .result (.str version) }

/-- Rust `handle_eth_sign_jsonrpc(payload, signer)` from `src/signers/common.rs`
lines 57-73 (before the `AppJson`/`AppError` wrapping): dispatch on the
method name — `eth_signTransaction` and `health_status` are handled locally,
every other method yields a "method not supported" error. -/
def handle_eth_sign_jsonrpc
    (build : TransactionRequest → EthereumWallet → Except String TxEnvelope)
    (version : String) (payload : JsonRpcRequest (List Value))
    (signer : EthereumWallet) : Except String (JsonRpcReply Value) :=
  match payload.method with
  | "eth_signTransaction" => handle_eth_sign_transaction build payload signer
  | "health_status" => handle_health_status version payload
  | m => Except.error
      ("method not supported (only eth_signTransaction and health_status): " ++ m)

/-! ## HTTP rendering (`src/app_types.rs`) and the request handlers -/

/-- The serialized body of an HTTP response produced by the program: a
JSON-RPC reply (`AppJson<JsonRpcReply<Value>>`), the anonymous
`ErrorResponse { message }` struct of `AppError::into_response`, an
`AddressResponse`, or an empty body (a bare status code). -/
inductive HttpBody where
  | jsonRpc (r : JsonRpcReply Value)
  | errJson (message : String)
  | addressJson (a : AddressResponse)
  | empty
deriving Repr, DecidableEq

/-- An HTTP response: status code and body. -/
structure Response where
  status : Nat
  body : HttpBody
deriving Repr, DecidableEq

/-- Rust `AppError::into_response` from `src/app_types.rs` lines 25-40: status 500
INTERNAL_SERVER_ERROR with the JSON body `ErrorResponse` carrying the error's
string rendering — not a JSON-RPC reply. -/
def appErrorIntoResponse (e : String) : Response :=
  { status := 500, body := .errJson e }

/-- Rust `AppJson<JsonRpcReply<Value>>` rendered by axum: status 200 OK with the
reply as JSON body. -/
def appJsonIntoResponse (r : JsonRpcReply Value) : Response :=
  { status := 200, body := .jsonRpc r }

/-- Rust `handle_request(key_id, state, payload)` from `src/signers/yubihsm.rs`
lines 107-115 (and `src/signers/aws_kms.rs` lines 52-65): resolve the signer
for the path's key id through the cache first, short-circuiting on a resolve
error (the `?`), then dispatch on the method name. -/
def handle_request [DecidableEq K]
    (backend : K → Except String YubiSigner)
    (build : TransactionRequest → EthereumWallet → Except String TxEnvelope)
    (version : String) (s : SrvState K) (k : K)
    (payload : JsonRpcRequest (List Value)) :
    Except String (JsonRpcReply Value) × SrvState K :=
  match getSigner backend s k with
  | (.error e, s1) => (.error e, s1)
  | (.ok w, s1) => (handle_eth_sign_jsonrpc build version payload w, s1)

/-- The full HTTP outcome of `POST /key/{key_id}`: the handler result mapped
through `AppJson`/`AppError` rendering (`result.map(AppJson).map_err(AppError)`
in the handler plus `IntoResponse` from `src/app_types.rs`). -/
def handleRequestHttp [DecidableEq K]
    (backend : K → Except String YubiSigner)
    (build : TransactionRequest → EthereumWallet → Except String TxEnvelope)
    (version : String) (s : SrvState K) (k : K)
    (payload : JsonRpcRequest (List Value)) : Response × SrvState K :=
  match handle_request backend build version s k payload with
  | (.error e, s1) => (appErrorIntoResponse e, s1)
  | (.ok r, s1) => (appJsonIntoResponse r, s1)

/-- Rust `handle_address_request(key_id, state, payload)` from
`src/signers/yubihsm.rs` lines 134-145 (and `src/signers/aws_kms.rs` lines
82-94): run `get_address`; on success reply 200 with the rendered address
(`renderAddr` models alloy's `Address::to_string`), on failure reply with the
bare status 500 and no body. -/
def handle_address_request [DecidableEq K]
    (backend : K → Except String YubiSigner) (renderAddr : Nat → String)
    (s : SrvState K) (k : K) : Response × SrvState K :=
  match getAddress backend s k with
  | (.ok a, s1) => ({ status := 200, body := .addressJson ⟨renderAddr a⟩ }, s1)
  | (.error _, s1) => ({ status := 500, body := .empty }, s1)

/-- Modelled from the spec: the Dispatcher of §4.2 together with the
UpstreamProxy of §4.4, which the source does not contain — "every other
method name is forwarded verbatim to UpstreamProxy" and the upstream's reply
is relayed unmodified.  `upstream` is the configured node's reply function. -/
def dispatchSpec
    (build : TransactionRequest → EthereumWallet → Except String TxEnvelope)
    (version : String)
    (upstream : JsonRpcRequest (List Value) → JsonRpcReply Value)
    (payload : JsonRpcRequest (List Value)) (signer : EthereumWallet) :
    Except String (JsonRpcReply Value) :=
  match payload.method with
  | "eth_signTransaction" => handle_eth_sign_transaction build payload signer
  | "health_status" => handle_health_status version payload
  | _ => Except.ok (upstream payload)

/-! ## Concrete fixtures used by witnesses and counterexamples -/

/-- A backend on numeric key ids where every key resolves. -/
def exBackend : Nat → Except String YubiSigner :=
  fun k => Except.ok ⟨k, 1000 + k⟩

/-- A backend where every resolve fails (device unreachable / unknown key). -/
def exFailBackend : Nat → Except String YubiSigner :=
  fun _ => Except.error "key not found"

/-- A build pipeline that signs every request into a fixed EIP-1559
envelope. -/
def exBuild : TransactionRequest → EthereumWallet → Except String TxEnvelope :=
  fun _ _ => Except.ok ⟨TxType.eip1559, [0xc0]⟩

/-- A concrete parsed transaction object. -/
def exTx : TransactionRequest :=
  ⟨[("to", "0x1111111111111111111111111111111111111111"), ("value", "0x1")]⟩

/-- A concrete wallet as the backend would produce for key 1. -/
def exWallet : EthereumWallet := ⟨⟨1, 1001⟩⟩

/-- A concrete EIP-1559 envelope whose RLP payload is the single byte 0xc0. -/
def exEnvelope : TxEnvelope := ⟨TxType.eip1559, [0xc0]⟩

/-- An upstream node that answers every request with result "0x1" under the
request's id — used to instantiate the spec's UpstreamProxy. -/
def exUpstream : JsonRpcRequest (List Value) → JsonRpcReply Value :=
  fun req => ⟨req.id, req.jsonrpc, .result (.str "0x1")⟩

/-- Request: `eth_chainId`, a method the gateway does not implement. -/
def pChainId : JsonRpcRequest (List Value) := ⟨"2.0", "eth_chainId", 2, some []⟩

/-- Request: `eth_signTransaction` with an empty params array. -/
def pEmptyParams : JsonRpcRequest (List Value) :=
  ⟨"2.0", "eth_signTransaction", 3, some []⟩

/-- Request: an arbitrary unsupported method name. -/
def pFoo : JsonRpcRequest (List Value) := ⟨"2.0", "foo", 7, some []⟩

/-- Request: the local health/version probe. -/
def pHealth : JsonRpcRequest (List Value) := ⟨"2.0", "health_status", 5, none⟩

/-- Request: a well-formed `eth_signTransaction`. -/
def pSign : JsonRpcRequest (List Value) :=
  ⟨"2.0", "eth_signTransaction", 1, some [Value.txObject exTx]⟩

/-! ## Shapes of the claimed reply formats -/

/-- The reply shape claimed for failures: the body is a JSON-RPC reply whose
result is an error object and whose id echoes the request id. -/
def isJsonRpcErrorEcho (resp : Response) (reqId : Nat) : Bool :=
  match resp.body with
  | .jsonRpc r =>
    decide (r.id = reqId) &&
      (match r.result with | .error _ _ => true | _ => false)
  | _ => false

/-- A client-error (4xx) HTTP status. -/
def isClientErrorStatus (n : Nat) : Bool :=
  decide (400 ≤ n) && decide (n < 500)

/-! ## Helper lemmas about the cache -/

theorem lookupA_head [DecidableEq K] (k : K) (w : EthereumWallet)
    (c : List (K × EthereumWallet)) : lookupA ((k, w) :: c) k = some w := by
  simp [lookupA]

theorem lookupA_cons_ne [DecidableEq K] {k k' : K} (h : k ≠ k')
    (w : EthereumWallet) (c : List (K × EthereumWallet)) :
    lookupA ((k', w) :: c) k = lookupA c k := by
  simp [lookupA, h]

theorem getSigner_hit [DecidableEq K] {b : K → Except String YubiSigner}
    {s : SrvState K} {k : K} {w : EthereumWallet}
    (h : lookupA s.cache k = some w) : getSigner b s k = (.ok w, s) := by
  unfold getSigner
  rw [h]

theorem getSigner_miss_ok [DecidableEq K] {b : K → Except String YubiSigner}
    {s : SrvState K} {k : K} {ys : YubiSigner}
    (h1 : lookupA s.cache k = none) (h2 : b k = .ok ys) :
    getSigner b s k =
      (.ok (EthereumWallet.fromSigner ys),
       { cache := (k, EthereumWallet.fromSigner ys) :: s.cache,
         log := s.log ++ [.resolveOk k] }) := by
  unfold getSigner
  rw [h1, h2]

theorem getSigner_miss_fail [DecidableEq K] {b : K → Except String YubiSigner}
    {s : SrvState K} {k : K} {e : String}
    (h1 : lookupA s.cache k = none) (h2 : b k = .error e) :
    getSigner b s k = (.error e, { s with log := s.log ++ [.resolveFail k] }) := by
  unfold getSigner
  rw [h1, h2]

theorem stepOp_persist [DecidableEq K] {b : K → Except String YubiSigner}
    {s : SrvState K} {k : K} {w : EthereumWallet} (op : Op K)
    (h : lookupA s.cache k = some w) :
    lookupA (stepOp b s op).cache k = some w := by
  cases op with
  | sign k' =>
    show lookupA (getSigner b s k').2.cache k = some w
    cases hl : lookupA s.cache k' with
    | some w' => rw [getSigner_hit hl]; exact h
    | none =>
      cases hb : b k' with
      | error e => rw [getSigner_miss_fail hl hb]; exact h
      | ok ys =>
        rw [getSigner_miss_ok hl hb]
        have hne : k ≠ k' := by
          intro he
          rw [he, hl] at h
          cases h
        rw [lookupA_cons_ne hne]
        exact h
  | addr k' =>
    show lookupA (getAddress b s k').2.cache k = some w
    unfold getAddress
    cases b k' <;> exact h

theorem stepOp_cache_mono [DecidableEq K] (b : K → Except String YubiSigner)
    (s : SrvState K) (op : Op K) :
    (stepOp b s op).cache = s.cache ∨
      ∃ k w, lookupA s.cache k = none ∧ (stepOp b s op).cache = (k, w) :: s.cache := by
  cases op with
  | sign k' =>
    simp only [stepOp]
    cases hl : lookupA s.cache k' with
    | some w' => rw [getSigner_hit hl]; exact Or.inl rfl
    | none =>
      cases hb : b k' with
      | error e => rw [getSigner_miss_fail hl hb]; exact Or.inl rfl
      | ok ys =>
        rw [getSigner_miss_ok hl hb]
        exact Or.inr ⟨k', EthereumWallet.fromSigner ys, hl, rfl⟩
  | addr k' =>
    simp only [stepOp]
    unfold getAddress
    cases b k' <;> exact Or.inl rfl

theorem okResolveCalls_append [DecidableEq K] (l1 l2 : List (Ev K)) (k : K) :
    okResolveCalls (l1 ++ l2) k = okResolveCalls l1 k + okResolveCalls l2 k := by
  simp [okResolveCalls, List.countP_append]

theorem okResolveCalls_single_ne [DecidableEq K] {k k' : K} (h : k' ≠ k) :
    okResolveCalls [Ev.resolveOk k'] k = 0 := by
  simp [okResolveCalls, List.countP_cons, h]

theorem okResolveCalls_single_fail [DecidableEq K] (k k' : K) :
    okResolveCalls [Ev.resolveFail k'] k = 0 := by
  simp [okResolveCalls, List.countP_cons]

theorem okResolveCalls_single_addr [DecidableEq K] (k k' : K) :
    okResolveCalls [Ev.addrResolve k'] k = 0 := by
  simp [okResolveCalls, List.countP_cons]

theorem okResolveCalls_single_self [DecidableEq K] (k : K) :
    okResolveCalls [Ev.resolveOk k] k = 1 := by
  simp [okResolveCalls, List.countP_cons]

theorem stepOp_okCalls_of_cached [DecidableEq K] {b : K → Except String YubiSigner}
    {s : SrvState K} {k : K} {w : EthereumWallet} (op : Op K)
    (h : lookupA s.cache k = some w) :
    okResolveCalls (stepOp b s op).log k = okResolveCalls s.log k := by
  cases op with
  | sign k' =>
    simp only [stepOp]
    cases hl : lookupA s.cache k' with
    | some w' => rw [getSigner_hit hl]
    | none =>
      have hne : k' ≠ k := by
        intro he
        rw [he, h] at hl
        cases hl
      cases hb : b k' with
      | error e =>
        rw [getSigner_miss_fail hl hb]
        simp only [okResolveCalls_append, okResolveCalls_single_fail, Nat.add_zero]
      | ok ys =>
        rw [getSigner_miss_ok hl hb]
        simp only [okResolveCalls_append, okResolveCalls_single_ne hne, Nat.add_zero]
  | addr k' =>
    simp only [stepOp]
    unfold getAddress
    cases b k' <;>
      simp only [okResolveCalls_append, okResolveCalls_single_addr, Nat.add_zero]

theorem okCalls_run_of_cached [DecidableEq K] {b : K → Except String YubiSigner}
    {k : K} {w : EthereumWallet} (ops : List (Op K)) :
    ∀ s : SrvState K, lookupA s.cache k = some w →
      okResolveCalls (runOps b s ops).log k = okResolveCalls s.log k := by
  induction ops with
  | nil => intro s _; rfl
  | cons op rest ih =>
    intro s h
    show okResolveCalls (runOps b (stepOp b s op) rest).log k = _
    rw [ih (stepOp b s op) (stepOp_persist op h), stepOp_okCalls_of_cached op h]

theorem okCalls_run_le [DecidableEq K] {b : K → Except String YubiSigner}
    {k : K} (ops : List (Op K)) :
    ∀ s : SrvState K, lookupA s.cache k = none →
      okResolveCalls (runOps b s ops).log k ≤ okResolveCalls s.log k + 1 := by
  induction ops with
  | nil => intro s _; exact Nat.le_succ _
  | cons op rest ih =>
    intro s h
    show okResolveCalls (runOps b (stepOp b s op) rest).log k ≤ _
    cases op with
    | sign k' =>
      by_cases hkk : k' = k
      · subst hkk
        cases hb : b k' with
        | error e =>
          have hs : stepOp b s (Op.sign k') = { s with log := s.log ++ [.resolveFail k'] } := by
            simp only [stepOp]
            rw [getSigner_miss_fail h hb]
          rw [hs]
          have hle := ih { s with log := s.log ++ [.resolveFail k'] } h
          rw [okResolveCalls_append, okResolveCalls_single_fail] at hle
          exact hle
        | ok ys =>
          have hs : stepOp b s (Op.sign k') =
              { cache := (k', EthereumWallet.fromSigner ys) :: s.cache,
                log := s.log ++ [.resolveOk k'] } := by
            simp only [stepOp]
            rw [getSigner_miss_ok h hb]
          rw [hs]
          rw [okCalls_run_of_cached rest _ (lookupA_head k' (EthereumWallet.fromSigner ys) s.cache)]
          rw [okResolveCalls_append, okResolveCalls_single_self]
      · have hne : k' ≠ k := hkk
        cases hl : lookupA s.cache k' with
        | some w' =>
          have hs : stepOp b s (Op.sign k') = s := by
            simp only [stepOp]
            rw [getSigner_hit hl]
          rw [hs]
          exact ih s h
        | none =>
          cases hb : b k' with
          | error e =>
            have hs : stepOp b s (Op.sign k') = { s with log := s.log ++ [.resolveFail k'] } := by
              simp only [stepOp]
              rw [getSigner_miss_fail hl hb]
            rw [hs]
            have hle := ih { s with log := s.log ++ [.resolveFail k'] } h
            rw [okResolveCalls_append, okResolveCalls_single_fail] at hle
            exact hle
          | ok ys =>
            have hs : stepOp b s (Op.sign k') =
                { cache := (k', EthereumWallet.fromSigner ys) :: s.cache,
                  log := s.log ++ [.resolveOk k'] } := by
              simp only [stepOp]
              rw [getSigner_miss_ok hl hb]
            rw [hs]
            have hkne : k ≠ k' := fun he => hne he.symm
            have hlook : lookupA (SrvState.cache
                { cache := (k', EthereumWallet.fromSigner ys) :: s.cache,
                  log := s.log ++ [.resolveOk k'] }) k = none := by
              show lookupA ((k', EthereumWallet.fromSigner ys) :: s.cache) k = none
              rw [lookupA_cons_ne hkne]; exact h
            have hle := ih { cache := (k', EthereumWallet.fromSigner ys) :: s.cache,
                             log := s.log ++ [.resolveOk k'] } hlook
            rw [okResolveCalls_append, okResolveCalls_single_ne hne] at hle
            exact hle
    | addr k' =>
      have hs : (stepOp b s (Op.addr k')).cache = s.cache ∧
          (stepOp b s (Op.addr k')).log = s.log ++ [.addrResolve k'] := by
        simp only [stepOp]
        unfold getAddress
        cases b k' <;> exact ⟨rfl, rfl⟩
      have hlook : lookupA (stepOp b s (Op.addr k')).cache k = none := by
        rw [hs.1]; exact h
      have hle := ih _ hlook
      rw [hs.2, okResolveCalls_append, okResolveCalls_single_addr] at hle
      exact hle

theorem runGetSigners_hit [DecidableEq K] (b : K → Except String YubiSigner)
    (s : SrvState K) (k : K) (w : EthereumWallet) (n : Nat)
    (h : lookupA s.cache k = some w) :
    runGetSigners b s k n = (List.replicate n (.ok w), s) := by
  induction n with
  | zero => rfl
  | succ m ih =>
    show (let (r, s1) := getSigner b s k
          let (rs, s2) := runGetSigners b s1 k m
          (r :: rs, s2)) = _
    rw [getSigner_hit h]
    simp only []
    rw [ih]
    rfl

theorem resolveCalls_append [DecidableEq K] (l1 l2 : List (Ev K)) (k : K) :
    resolveCalls (l1 ++ l2) k = resolveCalls l1 k + resolveCalls l2 k := by
  simp [resolveCalls, List.countP_append]

theorem resolveCalls_ok_self [DecidableEq K] (k : K) :
    resolveCalls [Ev.resolveOk k] k = 1 := by
  simp [resolveCalls, List.countP_cons]

theorem resolveCalls_fail_self [DecidableEq K] (k : K) :
    resolveCalls [Ev.resolveFail k] k = 1 := by
  simp [resolveCalls, List.countP_cons]

/-- C1: when N concurrent requests call the signer-cache lookup `get_signer`
for a previously-unseen key `k` whose backend resolve succeeds, the cache
mutex (held across the whole miss path) serializes them into `N` sequential
executions; exactly one backend resolve call is issued for `k` and every
caller observes the same wallet value. -/
theorem C1_single_flight [DecidableEq K] (b : K → Except String YubiSigner)
    (s : SrvState K) (k : K) (ys : YubiSigner) (n : Nat)
    (h1 : lookupA s.cache k = none) (h2 : b k = .ok ys) :
    (runGetSigners b s k (n + 1)).1 =
      List.replicate (n + 1) (.ok (EthereumWallet.fromSigner ys)) ∧
    (runGetSigners b s k (n + 1)).2.log = s.log ++ [.resolveOk k] ∧
    resolveCalls (runGetSigners b s k (n + 1)).2.log k = resolveCalls s.log k + 1 := by
  have hrun : runGetSigners b s k (n + 1) =
      (.ok (EthereumWallet.fromSigner ys) ::
         List.replicate n (.ok (EthereumWallet.fromSigner ys)),
       { cache := (k, EthereumWallet.fromSigner ys) :: s.cache,
         log := s.log ++ [.resolveOk k] }) := by
    show (let (r, s1) := getSigner b s k
          let (rs, s2) := runGetSigners b s1 k n
          (r :: rs, s2)) = _
    rw [getSigner_miss_ok h1 h2]
    show (let (rs, s2) := runGetSigners b
            { cache := (k, EthereumWallet.fromSigner ys) :: s.cache,
              log := s.log ++ [.resolveOk k] } k n
          (Except.ok (EthereumWallet.fromSigner ys) :: rs, s2)) = _
    rw [runGetSigners_hit b
          { cache := (k, EthereumWallet.fromSigner ys) :: s.cache,
            log := s.log ++ [.resolveOk k] } k (EthereumWallet.fromSigner ys) n
          (lookupA_head k (EthereumWallet.fromSigner ys) s.cache)]
  rw [hrun]
  refine ⟨rfl, rfl, ?_⟩
  rw [resolveCalls_append, resolveCalls_ok_self]

/-- C1 witness: three serialized first-time lookups of key 7 against a
healthy backend — one resolve issued, all three callers get the same
wallet. -/
theorem C1_single_flight_witness :
    (runGetSigners exBackend (initState Nat) 7 (2 + 1)).1 =
      List.replicate (2 + 1) (.ok (EthereumWallet.fromSigner ⟨7, 1007⟩)) ∧
    (runGetSigners exBackend (initState Nat) 7 (2 + 1)).2.log =
      (initState Nat).log ++ [.resolveOk 7] ∧
    resolveCalls (runGetSigners exBackend (initState Nat) 7 (2 + 1)).2.log 7 =
      resolveCalls (initState Nat).log 7 + 1 :=
  C1_single_flight exBackend (initState Nat) 7 ⟨7, 1007⟩ 2 rfl rfl

/-- C7: over any serialized sequence of operations from process start, at
most one successful backend resolve is ever issued for a key by the
signer-cache lookup `get_signer`; and every operation either leaves the cache
unchanged or adds an entry for a previously-absent key, so an entry, once
present, is never removed or replaced. -/
theorem C7_cache_append_only [DecidableEq K] (b : K → Except String YubiSigner)
    (ops : List (Op K)) (k : K) :
    okResolveCalls (runOps b (initState K) ops).log k ≤ 1 ∧
    (∀ (s : SrvState K) (op : Op K),
      (stepOp b s op).cache = s.cache ∨
        ∃ k0 w0, lookupA s.cache k0 = none ∧
          (stepOp b s op).cache = (k0, w0) :: s.cache) ∧
    (∀ (s : SrvState K) (op : Op K) (w : EthereumWallet),
      lookupA s.cache k = some w → lookupA (stepOp b s op).cache k = some w) := by
  refine ⟨?_, ?_, ?_⟩
  · have h := @okCalls_run_le K _ b k ops (initState K) rfl
    simpa [okResolveCalls, initState] using h
  · exact fun s op => stepOp_cache_mono b s op
  · exact fun s op w h => stepOp_persist op h

/-- C7 witness: two signing requests and one address request for key 1 from
process start issue at most one successful cache resolve for key 1, and a
cached entry for key 1 survives a signing request for key 2. -/
theorem C7_cache_append_only_witness :
    okResolveCalls (runOps exBackend (initState Nat) [.sign 1, .sign 1, .addr 1]).log 1 ≤ 1 ∧
    lookupA (stepOp exBackend ⟨[(1, exWallet)], []⟩ (Op.sign 2)).cache 1 = some exWallet :=
  ⟨(C7_cache_append_only exBackend [.sign 1, .sign 1, .addr 1] 1).1,
   (C7_cache_append_only exBackend [.sign 1, .sign 1, .addr 1] 1).2.2
     ⟨[(1, exWallet)], []⟩ (Op.sign 2) exWallet rfl⟩

/-- C8: when the backend resolve for an uncached key fails, `get_signer`
returns the resolve error, the cache is unchanged (no entry is retained for
the key), and a subsequent lookup for the same key issues a fresh resolve
attempt. -/
theorem C8_failed_resolve_not_cached [DecidableEq K]
    (b : K → Except String YubiSigner) (s : SrvState K) (k : K) (e : String)
    (h1 : lookupA s.cache k = none) (h2 : b k = .error e) :
    getSigner b s k = (.error e, { s with log := s.log ++ [.resolveFail k] }) ∧
    (getSigner b s k).2.cache = s.cache ∧
    (getSigner b (getSigner b s k).2 k).1 = .error e ∧
    resolveCalls (getSigner b (getSigner b s k).2 k).2.log k =
      resolveCalls s.log k + 2 := by
  have hfirst := getSigner_miss_fail h1 h2
  have hsecond : getSigner b { s with log := s.log ++ [.resolveFail k] } k =
      (.error e, { s with log := (s.log ++ [.resolveFail k]) ++ [.resolveFail k] }) :=
    getSigner_miss_fail h1 h2
  refine ⟨hfirst, ?_, ?_, ?_⟩
  · rw [hfirst]
  · rw [hfirst, hsecond]
  · rw [hfirst, hsecond]
    show resolveCalls ((s.log ++ [.resolveFail k]) ++ [.resolveFail k]) k = _
    rw [resolveCalls_append, resolveCalls_append, resolveCalls_fail_self]

/-- C8 witness: key 42 against a backend that rejects every resolve — the
error is returned, nothing is cached, and a retry resolves afresh. -/
theorem C8_failed_resolve_not_cached_witness :
    getSigner exFailBackend (initState Nat) 42 =
      (.error "key not found",
       { initState Nat with log := (initState Nat).log ++ [.resolveFail 42] }) ∧
    (getSigner exFailBackend (initState Nat) 42).2.cache = (initState Nat).cache ∧
    (getSigner exFailBackend (getSigner exFailBackend (initState Nat) 42).2 42).1 =
      .error "key not found" ∧
    resolveCalls
      (getSigner exFailBackend (getSigner exFailBackend (initState Nat) 42).2 42).2.log 42 =
      resolveCalls (initState Nat).log 42 + 2 :=
  C8_failed_resolve_not_cached exFailBackend (initState Nat) 42 "key not found" rfl rfl

/-- C9: `handle_request` resolves the signer for the path's key before
inspecting the method name, so when the resolve fails every method —
including `health_status` and unsupported names — returns the resolve error;
and on a cache miss the `health_status` method does trigger a backend
resolve. -/
theorem C9_resolve_before_dispatch [DecidableEq K]
    (b1 b2 : K → Except String YubiSigner)
    (build : TransactionRequest → EthereumWallet → Except String TxEnvelope)
    (version : String) (s : SrvState K) (k : K) (e : String) (ys : YubiSigner)
    (h1 : lookupA s.cache k = none) (hfail : b1 k = .error e)
    (hok : b2 k = .ok ys) :
    (∀ payload : JsonRpcRequest (List Value),
      handle_request b1 build version s k payload =
        (.error e, { s with log := s.log ++ [.resolveFail k] })) ∧
    (∀ payload : JsonRpcRequest (List Value), payload.method = "health_status" →
      (handle_request b2 build version s k payload).2.log =
        s.log ++ [.resolveOk k]) := by
  constructor
  · intro payload
    unfold handle_request
    rw [getSigner_miss_fail h1 hfail]
  · intro payload _
    unfold handle_request
    rw [getSigner_miss_ok h1 hok]

/-- C9 witness: with key 1 uncached, a failing backend makes both the
`health_status` probe and an unsupported method return the resolve error,
and a healthy backend is contacted by the `health_status` probe. -/
theorem C9_resolve_before_dispatch_witness :
    (handle_request exFailBackend exBuild "0.1.0" (initState Nat) 1 pHealth =
      (.error "key not found",
       { initState Nat with log := (initState Nat).log ++ [.resolveFail 1] })) ∧
    (handle_request exFailBackend exBuild "0.1.0" (initState Nat) 1 pFoo =
      (.error "key not found",
       { initState Nat with log := (initState Nat).log ++ [.resolveFail 1] })) ∧
    (handle_request exBackend exBuild "0.1.0" (initState Nat) 1 pHealth).2.log =
      (initState Nat).log ++ [.resolveOk 1] :=
  ⟨(C9_resolve_before_dispatch exFailBackend exBackend exBuild "0.1.0"
      (initState Nat) 1 "key not found" ⟨1, 1001⟩ rfl rfl rfl).1 pHealth,
   (C9_resolve_before_dispatch exFailBackend exBackend exBuild "0.1.0"
      (initState Nat) 1 "key not found" ⟨1, 1001⟩ rfl rfl rfl).1 pFoo,
   (C9_resolve_before_dispatch exFailBackend exBackend exBuild "0.1.0"
      (initState Nat) 1 "key not found" ⟨1, 1001⟩ rfl rfl rfl).2 pHealth rfl⟩

/-- C10: `get_address` (the `GET /key/id/address` handler) constructs a fresh
signer directly from the backend: the cache is neither read (the result is a
function of the backend alone) nor modified (the cache after the call equals
the cache before it, also on success), a backend resolve is issued even for a
cached key, and the full address handler also leaves the cache unchanged. -/
theorem C10_address_bypasses_cache [DecidableEq K]
    (b : K → Except String YubiSigner) (renderAddr : Nat → String)
    (s : SrvState K) (k : K) :
    (getAddress b s k).2.cache = s.cache ∧
    (getAddress b s k).1 = Except.map YubiSigner.address (b k) ∧
    (getAddress b s k).2.log = s.log ++ [.addrResolve k] ∧
    (handle_address_request b renderAddr s k).2.cache = s.cache := by
  unfold handle_address_request getAddress
  cases b k <;> simp [Except.map]

/-- C5: every successful reply produced by the dispatcher echoes the
request's id and jsonrpc version string. -/
theorem C5_reply_echoes_id
    (build : TransactionRequest → EthereumWallet → Except String TxEnvelope)
    (version : String) (payload : JsonRpcRequest (List Value))
    (signer : EthereumWallet) (r : JsonRpcReply Value)
    (h : handle_eth_sign_jsonrpc build version payload signer = .ok r) :
    r.id = payload.id ∧ r.jsonrpc = payload.jsonrpc := by
  unfold handle_eth_sign_jsonrpc at h
  split at h
  · -- eth_signTransaction branch
    unfold handle_eth_sign_transaction at h
    split at h
    · exact Except.noConfusion h
    · split at h
      · exact Except.noConfusion h
      · split at h
        · exact Except.noConfusion h
        · split at h
          · exact Except.noConfusion h
          · injection h with h2
            rw [← h2]
            exact ⟨rfl, rfl⟩
  · -- health_status branch
    unfold handle_health_status at h
    injection h with h2
    rw [← h2]
    exact ⟨rfl, rfl⟩
  · -- unsupported method branch
    exact Except.noConfusion h

/-- C5 witness: a concrete `health_status` request whose reply echoes id 5
and version string "2.0". -/
theorem C5_reply_echoes_id_witness :
    (⟨5, "2.0", .result (.str "0.1.0")⟩ : JsonRpcReply Value).id = pHealth.id ∧
    (⟨5, "2.0", .result (.str "0.1.0")⟩ : JsonRpcReply Value).jsonrpc = pHealth.jsonrpc :=
  C5_reply_echoes_id exBuild "0.1.0" pHealth exWallet
    ⟨5, "2.0", .result (.str "0.1.0")⟩ rfl

theorem handleRequestHttp_ok_err [DecidableEq K] {b : K → Except String YubiSigner}
    {build : TransactionRequest → EthereumWallet → Except String TxEnvelope}
    {version : String} {s s1 : SrvState K} {k : K} {w : EthereumWallet}
    {payload : JsonRpcRequest (List Value)} {e : String}
    (h : getSigner b s k = (.ok w, s1))
    (h2 : handle_eth_sign_jsonrpc build version payload w = .error e) :
    handleRequestHttp b build version s k payload = (appErrorIntoResponse e, s1) := by
  simp only [handleRequestHttp, handle_request, h, h2]

theorem handleRequestHttp_ok_ok [DecidableEq K] {b : K → Except String YubiSigner}
    {build : TransactionRequest → EthereumWallet → Except String TxEnvelope}
    {version : String} {s s1 : SrvState K} {k : K} {w : EthereumWallet}
    {payload : JsonRpcRequest (List Value)} {r : JsonRpcReply Value}
    (h : getSigner b s k = (.ok w, s1))
    (h2 : handle_eth_sign_jsonrpc build version payload w = .ok r) :
    handleRequestHttp b build version s k payload = (appJsonIntoResponse r, s1) := by
  simp only [handleRequestHttp, handle_request, h, h2]

theorem handleRequestHttp_err [DecidableEq K] {b : K → Except String YubiSigner}
    {build : TransactionRequest → EthereumWallet → Except String TxEnvelope}
    {version : String} {s s1 : SrvState K} {k : K} {e : String}
    {payload : JsonRpcRequest (List Value)}
    (h : getSigner b s k = (.error e, s1)) :
    handleRequestHttp b build version s k payload = (appErrorIntoResponse e, s1) := by
  unfold handleRequestHttp handle_request
  rw [h]

/-- C4 counterexample: `eth_signTransaction` with an empty params array is
rejected, but the response is HTTP 500 with the bare `ErrorResponse` body —
a server-error status, not a client-error (4xx) reply and not a JSON-RPC
`InvalidParams` error object. -/
theorem C4_counterexample :
    (handleRequestHttp exBackend exBuild "0.1.0" (initState Nat) 1 pEmptyParams).1.status
      = 500 ∧
    isClientErrorStatus
      (handleRequestHttp exBackend exBuild "0.1.0" (initState Nat) 1 pEmptyParams).1.status
      = false ∧
    (handleRequestHttp exBackend exBuild "0.1.0" (initState Nat) 1 pEmptyParams).1.body
      = .errJson "params is empty" := by
  refine ⟨rfl, rfl, rfl⟩

/-- C4 (amended): `eth_signTransaction` with an empty or absent params array
yields the error reply "params is empty" — rendered by the HTTP layer as
status 500 with the `ErrorResponse` body, a server-error rather than a
client-error reply — and it does so without consulting the signing pipeline:
the outcome is the same for every `build` function and every signer. -/
theorem C4_empty_params_rejected [DecidableEq K]
    (b : K → Except String YubiSigner)
    (build : TransactionRequest → EthereumWallet → Except String TxEnvelope)
    (version : String) (s : SrvState K) (k : K) (ys : YubiSigner)
    (payload : JsonRpcRequest (List Value))
    (hok : b k = .ok ys)
    (hp : payload.params = none ∨ payload.params = some [])
    (hm : payload.method = "eth_signTransaction") :
    (∀ (build2 : TransactionRequest → EthereumWallet → Except String TxEnvelope)
       (signer : EthereumWallet),
        handle_eth_sign_transaction build2 payload signer = .error "params is empty") ∧
    (handleRequestHttp b build version s k payload).1 =
      { status := 500, body := .errJson "params is empty" } := by
  have hreject : ∀ (build2 : TransactionRequest → EthereumWallet → Except String TxEnvelope)
      (signer : EthereumWallet),
      handle_eth_sign_transaction build2 payload signer = .error "params is empty" := by
    intro build2 signer
    unfold handle_eth_sign_transaction
    rcases hp with hp | hp <;> rw [hp]
    rfl
  refine ⟨hreject, ?_⟩
  have hdispatch : ∀ signer : EthereumWallet,
      handle_eth_sign_jsonrpc build version payload signer = .error "params is empty" := by
    intro signer
    unfold handle_eth_sign_jsonrpc
    rw [hm]
    exact hreject build signer
  cases hl : lookupA s.cache k with
  | some w =>
    rw [handleRequestHttp_ok_err (getSigner_hit hl) (hdispatch w)]
    rfl
  | none =>
    rw [handleRequestHttp_ok_err (getSigner_miss_ok hl hok)
      (hdispatch (EthereumWallet.fromSigner ys))]
    rfl

/-- C4 witness: concrete instance of the amended claim at an empty params
array for key 1. -/
theorem C4_empty_params_rejected_witness :
    handle_eth_sign_transaction exBuild pEmptyParams exWallet = .error "params is empty" ∧
    (handleRequestHttp exBackend exBuild "0.1.0" (initState Nat) 1 pEmptyParams).1 =
      { status := 500, body := .errJson "params is empty" } :=
  ⟨(C4_empty_params_rejected exBackend exBuild "0.1.0" (initState Nat) 1 ⟨1, 1001⟩
      pEmptyParams rfl (Or.inr rfl) rfl).1 exBuild exWallet,
   (C4_empty_params_rejected exBackend exBuild "0.1.0" (initState Nat) 1 ⟨1, 1001⟩
      pEmptyParams rfl (Or.inr rfl) rfl).2⟩

/-- C2 counterexample: a failing call (unsupported method "foo", id 7) is
answered with the bare `ErrorResponse` body under HTTP 500 — not a JSON-RPC
reply carrying an error object, and the request id is not echoed. -/
theorem C2_counterexample :
    (handleRequestHttp exBackend exBuild "0.1.0" (initState Nat) 1 pFoo).1 =
      appErrorIntoResponse
        "method not supported (only eth_signTransaction and health_status): foo" ∧
    isJsonRpcErrorEcho
      (handleRequestHttp exBackend exBuild "0.1.0" (initState Nat) 1 pFoo).1
      pFoo.id = false := by
  exact ⟨rfl, rfl⟩

/-- C2 (amended): every `POST /key/id` call produces either a 200 response
whose body is a JSON-RPC reply, or — for every failure during handling — a
500 response whose body is the bare `ErrorResponse` JSON object carrying the
error message; the failure body is not a JSON-RPC reply and carries no
request id. -/
theorem C2_error_rendering [DecidableEq K] (b : K → Except String YubiSigner)
    (build : TransactionRequest → EthereumWallet → Except String TxEnvelope)
    (version : String) (s : SrvState K) (k : K)
    (payload : JsonRpcRequest (List Value)) :
    (∃ r, (handleRequestHttp b build version s k payload).1 =
        appJsonIntoResponse r) ∨
    (∃ e, (handleRequestHttp b build version s k payload).1 =
        appErrorIntoResponse e ∧
      (handleRequestHttp b build version s k payload).1.status = 500 ∧
      ∀ r, (handleRequestHttp b build version s k payload).1.body ≠
        HttpBody.jsonRpc r) := by
  rcases hh : handle_request b build version s k payload with ⟨res, s1⟩
  cases res with
  | error e =>
    right
    refine ⟨e, ?_, ?_, ?_⟩ <;>
      simp [handleRequestHttp, hh, appErrorIntoResponse]
  | ok r =>
    left
    refine ⟨r, ?_⟩
    simp [handleRequestHttp, hh]

/-- C3 counterexample: the request `eth_chainId` (id 2) is answered locally
with a "method not supported" error; the spec's dispatcher, instantiated
with an upstream that replies result "0x1", would instead relay that reply —
so the gateway's reply does not equal the upstream's reply. -/
theorem C3_counterexample :
    handle_eth_sign_jsonrpc exBuild "0.1.0" pChainId exWallet =
      .error
        "method not supported (only eth_signTransaction and health_status): eth_chainId" ∧
    dispatchSpec exBuild "0.1.0" exUpstream pChainId exWallet =
      .ok ⟨2, "2.0", .result (.str "0x1")⟩ ∧
    handle_eth_sign_jsonrpc exBuild "0.1.0" pChainId exWallet ≠
      dispatchSpec exBuild "0.1.0" exUpstream pChainId exWallet := by
  refine ⟨rfl, rfl, ?_⟩
  intro hcontra
  rw [show handle_eth_sign_jsonrpc exBuild "0.1.0" pChainId exWallet =
        .error
          "method not supported (only eth_signTransaction and health_status): eth_chainId"
      from rfl,
    show dispatchSpec exBuild "0.1.0" exUpstream pChainId exWallet =
        .ok ⟨2, "2.0", .result (.str "0x1")⟩ from rfl] at hcontra
  exact Except.noConfusion hcontra

/-- C3 (amended): a request whose method is neither `eth_signTransaction`
nor `health_status` is not forwarded anywhere: the dispatcher answers it
locally with the "method not supported" error naming the method. -/
theorem C3_unsupported_method_is_error
    (build : TransactionRequest → EthereumWallet → Except String TxEnvelope)
    (version : String) (payload : JsonRpcRequest (List Value))
    (signer : EthereumWallet)
    (h1 : payload.method ≠ "eth_signTransaction")
    (h2 : payload.method ≠ "health_status") :
    handle_eth_sign_jsonrpc build version payload signer =
      .error ("method not supported (only eth_signTransaction and health_status): "
        ++ payload.method) := by
  unfold handle_eth_sign_jsonrpc
  split
  · rename_i hm
    exact absurd hm h1
  · rename_i hm
    exact absurd hm h2
  · rfl

/-- C3 amended-claim witness: the concrete `eth_chainId` request is answered
with the local method-not-supported error. -/
theorem C3_unsupported_method_is_error_witness :
    handle_eth_sign_jsonrpc exBuild "0.1.0" pChainId exWallet =
      .error ("method not supported (only eth_signTransaction and health_status): "
        ++ pChainId.method) :=
  C3_unsupported_method_is_error exBuild "0.1.0" pChainId exWallet
    (by decide) (by decide)

/-- C6: the encode stage of `src/signers/common.rs` pushes the transaction
type byte and then appends alloy's `Encodable::encode` output, which for a
typed transaction is the network encoding — an RLP string header followed by
the EIP-2718 bytes, which start with the type byte again.  On a concrete
EIP-1559 envelope (RLP payload `0xc0`) the stage therefore emits the type
tag twice plus a wrapper (`0x028202c0`), while the canonical type-prefixed
raw transaction format prescribed by the spec is `0x02c0` with the tag
exactly once. -/
theorem C6_encode_type_tag_twice :
    encodeStageHex exEnvelope = "0x028202c0" ∧
    canonicalEncodeHex exEnvelope = "0x02c0" ∧
    encodeStageHex exEnvelope ≠ canonicalEncodeHex exEnvelope ∧
    (encodeStageBytes exEnvelope).count 2 = 2 ∧
    (eip2718Encode exEnvelope).count 2 = 1 := by
  refine ⟨?_, ?_, ?_, ?_, ?_⟩ <;> decide
